import Mathlib

/-!
Shallow embedding of the request-processing core of the JMcomicBot repository
(command parsing, batch-parameter handling, permission gate, download queue
manager, command executor handlers, group-message routing), together with
theorems settling the specification claims about it.

Conventions used throughout:
* Python strings are Lean `String`s.  The Python string methods used by the
  source (`strip`, `split`, `isdigit`, `replace`, `in`, slicing) are
  re-implemented below by structural recursion over `String.data`, so that
  every definition evaluates on concrete inputs by `rfl`/`decide`.
* Python `dict`s keyed by manga id are association lists
  (`List (String × _)`) or plain key lists (`List String`) with
  insertion-order semantics: assignment to an existing key keeps its
  position, a new key is appended, `del` removes the key.
* Fallible Python code (raising `ValueError`) returns `Except String _`,
  the error string being the exception text.
* Side effects (message sends, file sends, queue puts, file removals) are
  collected in a trace of `BotAction`s; the filesystem is an explicit `Env`
  value (a missing download directory is `dirExists = false`).
-/

/-! ## Python string primitives -/

/-- Decimal digit character for `n % 10`. -/
def digitChar (n : Nat) : Char :=
  if n = 0 then '0' else if n = 1 then '1' else if n = 2 then '2'
  else if n = 3 then '3' else if n = 4 then '4' else if n = 5 then '5'
  else if n = 6 then '6' else if n = 7 then '7' else if n = 8 then '8' else '9'

/-- Fuel-driven decimal digit accumulator (fuel `n + 1` always suffices). -/
def natToCharsAux : Nat → Nat → List Char → List Char
  | 0, _, acc => acc
  | fuel + 1, n, acc =>
    let acc := digitChar (n % 10) :: acc
    if n < 10 then acc else natToCharsAux fuel (n / 10) acc

/-- Decimal rendering of a natural number (Python `f"{n}"`). -/
def natToString (n : Nat) : String := ⟨natToCharsAux (n + 1) n []⟩

/-- Python `str.strip()`: drop whitespace from both ends. -/
def pyTrim (s : String) : String :=
  ⟨((s.data.dropWhile Char.isWhitespace).reverse.dropWhile Char.isWhitespace).reverse⟩

/-- Python truthiness of a string: non-empty. -/
def pyNonEmpty (s : String) : Bool := !s.data.isEmpty

/-- Python `str.isdigit()` restricted to ASCII digits: non-empty and all
characters decimal digits. -/
def pyIsDigit (s : String) : Bool :=
  !s.data.isEmpty && s.data.all (fun c => c.isDigit)

/-- Python `c in s` for a single character `c`. -/
def pyContainsChar (s : String) (c : Char) : Bool := s.data.contains c

/-- Worker for `pySplitChar`, accumulating the current piece reversed. -/
def splitOnCharAux (sep : Char) : List Char → List Char → List String
  | [], acc => [⟨acc.reverse⟩]
  | c :: cs, acc =>
    if c == sep then (⟨acc.reverse⟩ : String) :: splitOnCharAux sep cs []
    else splitOnCharAux sep cs (c :: acc)

/-- Python `s.split(sep)` for a single-character separator, keeping empty
pieces (so `"".split(",") = [""]`). -/
def pySplitChar (s : String) (sep : Char) : List String :=
  splitOnCharAux sep s.data []

/-- Worker for `pySplitWS`. -/
def splitWSAux : List Char → List Char → List String
  | [], acc => if acc.isEmpty then [] else [⟨acc.reverse⟩]
  | c :: cs, acc =>
    if c.isWhitespace then
      if acc.isEmpty then splitWSAux cs []
      else (⟨acc.reverse⟩ : String) :: splitWSAux cs []
    else splitWSAux cs (c :: acc)

/-- Python no-argument `str.split()`: split on whitespace runs, dropping
empty pieces. -/
def pySplitWS (s : String) : List String := splitWSAux s.data []

/-- Python `s.startswith(pre)`. -/
def pyStartsWith (s pre : String) : Bool := pre.data.isPrefixOf s.data

/-- Python `s.endswith(suf)`. -/
def pyEndsWith (s suf : String) : Bool := suf.data.isSuffixOf s.data

/-- Python slicing `s[n:]` (character counted). -/
def pyDrop (s : String) (n : Nat) : String := ⟨s.data.drop n⟩

/-- Drop the last `n` characters (used for stripping a known extension). -/
def pyDropRight (s : String) (n : Nat) : String :=
  ⟨s.data.take (s.data.length - n)⟩

/-- Python `s.replace(old, new)` where `old` and `new` are single
characters (the only shape the source uses). -/
def pyReplaceChar (s : String) (old new : Char) : String :=
  ⟨s.data.map (fun c => if c == old then new else c)⟩

/-- Worker for `strContainsSub`. -/
def containsSubAux (sub : List Char) : List Char → Bool
  | [] => sub.isEmpty
  | c :: cs => sub.isPrefixOf (c :: cs) || containsSubAux sub cs

/-- Python `sub in s` substring test. -/
def strContainsSub (s sub : String) : Bool := containsSubAux sub.data s.data

/-- Worker for `replaceSub`, fuel-driven left-to-right non-overlapping
replacement exactly as Python `str.replace`. -/
def replaceSubAux (pattern repl : List Char) : Nat → List Char → List Char
  | 0, l => l
  | _ + 1, [] => []
  | fuel + 1, c :: cs =>
    if pattern.isPrefixOf (c :: cs) then
      repl ++ replaceSubAux pattern repl fuel (cs.drop (pattern.length - 1))
    else c :: replaceSubAux pattern repl fuel cs

/-- Python `s.replace(pattern, repl)` for a non-empty multi-character
`pattern` (every use site passes a non-empty pattern). -/
def replaceSub (s pattern repl : String) : String :=
  if pattern.data.isEmpty then s
  else ⟨replaceSubAux pattern.data repl.data s.data.length s.data⟩

/-! ## Python dict-on-keys helpers -/

/-- `d[k] = True` on a dict modelled by its key list: existing key keeps its
position, a new key is appended. -/
def dictInsertKey (l : List String) (k : String) : List String :=
  if l.contains k then l else l ++ [k]

/-- `del d[k]` on a dict modelled by its key list. -/
def dictEraseKey (l : List String) (k : String) : List String :=
  l.filter (fun x => x ≠ k)

/-- `d[k] = v` on an association-list dict. -/
def assocSet (m : List (String × α)) (k : String) (v : α) : List (String × α) :=
  if m.any (fun p => p.1 == k) then
    m.map (fun p => if p.1 == k then (k, v) else p)
  else m ++ [(k, v)]

/-- `del d[k]` on an association-list dict. -/
def assocErase (m : List (String × α)) (k : String) : List (String × α) :=
  m.filter (fun p => p.1 ≠ k)

/-- `k in d` on an association-list dict. -/
def assocHasKey (m : List (String × α)) (k : String) : Bool :=
  m.any (fun p => p.1 == k)

/-! ## src/utils/batch.py -/

/-- `parse_batch_params` from src/utils/batch.py: parses a batch-operation
argument string into an id list plus a `--all` flag, raising `ValueError`
(modelled as `Except.error`) on malformed input.  Note the only separator it
splits on is the ASCII comma. -/
def parse_batch_params (params : String) : Except String (List String × Bool) :=
  if !pyNonEmpty params || !pyNonEmpty (pyTrim params) then .ok ([], false)
  else
    let params := pyTrim params
    if params == "--all" then .ok ([], true)
    else if pyStartsWith params "--all" then
      let remaining := pyTrim (pyDrop params 5)
      if pyNonEmpty remaining then
        .error "❌ 参数错误！'--all' 参数不能与其他参数混用"
      else .ok ([], true)
    else if pyContainsChar params ',' then
      let ids := ((pySplitChar params ',').map pyTrim).filter pyNonEmpty
      if ids.isEmpty then .error "❌ 参数错误！未提供有效的漫画ID"
      else .ok (ids, false)
    else if pyIsDigit params then .ok ([params], false)
    else .error "❌ 参数错误！请提供有效的漫画ID（纯数字）或使用逗号分隔多个ID"

/-- `validate_manga_ids` from src/utils/batch.py: every id must be
all-digits; the first offender raises a `ValueError` naming it. -/
def validate_manga_ids : List String → Except String (List String)
  | [] => .ok []
  | mangaId :: rest =>
    if !pyIsDigit mangaId then
      .error ("❌ 参数错误！漫画ID '" ++ mangaId ++ "' 不是有效的数字")
    else
      match validate_manga_ids rest with
      | .ok v => .ok (mangaId :: v)
      | .error e => .error e

/-- One line of the failure-details section of `format_batch_response`. -/
def mkFailLine (r : String × Bool × String) : String :=
  "  • ID " ++ r.1 ++ ": " ++ r.2.2 ++ "\n"

/-- The count/summary header built by `format_batch_response`. -/
def batchHeader (command : String) (results : List (String × Bool × String)) : String :=
  let success_count := results.countP (fun r => r.2.1)
  let total_count := results.length
  "📊 批量" ++ command ++ "操作完成\n\n"
    ++ "总计：" ++ natToString total_count ++ " 个漫画\n"
    ++ "成功：" ++ natToString success_count ++ " 个\n"
    ++ "失败：" ++ natToString (total_count - success_count) ++ " 个\n\n"

/-- `format_batch_response` from src/utils/batch.py: renders the aggregated
response for a list of `(manga_id, success, message)` triples, itemizing the
failures in a loop exactly when `success_count < total_count`. -/
def format_batch_response (command : String)
    (results : List (String × Bool × String)) : String :=
  if results.isEmpty then "❌ 没有执行任何操作"
  else
    let success_count := results.countP (fun r => r.2.1)
    let total_count := results.length
    let response := batchHeader command results
    if success_count < total_count then
      response ++ "❌ 失败详情：\n"
        ++ results.foldl (fun acc r => if !r.2.1 then acc ++ mkFailLine r else acc) ""
    else response

/-! ## src/command/parser.py (CommandParser.validate_params) -/

/-- The commands `CommandParser.validate_params` treats as no-argument. -/
def no_param_commands : List String :=
  ["help", "list", "version", "progress", "test_id", "test_file", "unknown"]

/-- The batch-capable commands of `CommandParser`. -/
def batch_commands : List String := ["download", "send", "query", "delete"]

/-- `CommandParser.validate_params` from src/command/parser.py: pure
argument-shape predicate.  For batch-capable commands it accepts `--all`, a
list separated by any mixture of ASCII/full-width commas and periods (after
replacing all four separators by spaces and splitting on whitespace, every
piece must be all-digits), or a single all-digits token. -/
def validate_params (command : String) (params : String) : Bool :=
  let params := pyTrim params
  if no_param_commands.contains command && pyNonEmpty params then false
  else if no_param_commands.contains command then true
  else if !no_param_commands.contains command && !pyNonEmpty params then false
  else if batch_commands.contains command then
    if params == "--all" then true
    else if pyContainsChar params ',' || pyContainsChar params '.'
        || pyContainsChar params '，' || pyContainsChar params '。' then
      let replaced :=
        pyReplaceChar (pyReplaceChar (pyReplaceChar (pyReplaceChar params ',' ' ') '.' ' ') '，' ' ') '。' ' '
      let ids := ((pySplitWS replaced).map pyTrim).filter pyNonEmpty
      if ids.isEmpty then false
      else ids.all pyIsDigit
    else pyIsDigit params
  else true

/-! ## src/permission/manager.py -/

/-- The three permission lists of `PermissionManager` (loaded at startup). -/
structure PermissionManager where
  group_whitelist : List String
  private_whitelist : List String
  global_blacklist : List String

/-- `PermissionManager.check_user_permission`: global blacklist first, then
the whitelist for the channel kind (private whitelist in private chat, group
whitelist in group chat — the latter only when a group id is present), an
empty whitelist imposing no restriction.  A deny raises `ValueError`
(modelled as `Except.error` with the exception text). -/
def check_user_permission (pm : PermissionManager) (user_id : String)
    (group_id : Option String) (pvt : Bool) : Except String Bool :=
  if pm.global_blacklist.contains user_id then
    .error ("用户 " ++ user_id ++ " 在全局黑名单中，拒绝访问")
  else if pvt then
    if !pm.private_whitelist.isEmpty && !pm.private_whitelist.contains user_id then
      .error ("用户 " ++ user_id ++ " 不在私信白名单中，拒绝访问")
    else .ok true
  else
    match group_id with
    | some g =>
      if pyNonEmpty g && !pm.group_whitelist.isEmpty && !pm.group_whitelist.contains g then
        .error ("群组 " ++ g ++ " 不在群组白名单中，拒绝访问")
      else .ok true
    | none => .ok true

/-- Modelled from the spec: `check_delete_permission`, the delete-permission
gate called by `CommandExecutor._handle_manga_delete`.  Its definition is
missing from the repository snapshot (src/bot.py passes a
`delete_permission_user` list to `PermissionManager`, but
src/src/permission/manager.py neither accepts nor defines it); per spec §4.3
the set must contain exactly one entry to be considered configured — zero
entries is "未配置删除权限用户", several entries is
"删除权限用户名单必须且只能有一个用户", and with exactly one entry the
requesting user is allowed exactly when they are that entry. -/
def check_delete_permission (delete_permission_user : List String)
    (user_id : String) : Except String Bool :=
  if delete_permission_user.isEmpty then
    .error "未配置删除权限用户"
  else if 1 < delete_permission_user.length then
    .error "删除权限用户名单必须且只能有一个用户"
  else if delete_permission_user.contains user_id then .ok true
  else .error ("用户 " ++ user_id ++ " 没有删除权限")

/-! ## Filesystem environment and src/utils/helpers.py -/

/-- Snapshot of the filesystem as the handlers observe it: the download
directory's existence and file names, an abstract rendering of each file's
size in MB (`get_file_size_mb` + float formatting, not modelled
numerically), whether a stat of the file raises `FileNotFoundError`
(the file vanished between listing and stat), and whether `os.remove`
raises (with the exception text). -/
structure Env where
  dirExists : Bool
  files : List String
  sizeOf : String → String
  statErr : String → Bool
  removeErr : String → Option String

/-- `find_manga_pdf` from src/utils/helpers.py: first file in the download
directory named `<manga_id>-…​.pdf`, `none` when the directory is missing. -/
def find_manga_pdf (env : Env) (manga_id : String) : Option String :=
  if !env.dirExists then none
  else env.files.find? (fun f => pyStartsWith f (manga_id ++ "-") && pyEndsWith f ".pdf")

/-- Lexicographic order on strings as character lists (Python string `<`). -/
def strLtChars : List Char → List Char → Bool
  | [], [] => false
  | [], _ :: _ => true
  | _ :: _, [] => false
  | a :: as, b :: bs => if a < b then true else if b < a then false else strLtChars as bs

/-- Stable insertion into a `strLtChars`-sorted list. -/
def insertSortedStr (x : String) : List String → List String
  | [] => [x]
  | y :: ys => if strLtChars y.data x.data then y :: insertSortedStr x ys else x :: y :: ys

/-- Python `sorted` on strings (insertion sort, stable, same ordering). -/
def sortStrings (l : List String) : List String := l.foldr insertSortedStr []

/-- The names (extension stripped) of the `.pdf` files in the download
directory, sorted — `list_downloaded_mangas_with_size` from
src/utils/helpers.py, keeping only the name component. -/
def list_downloaded_pdf_names (env : Env) : List String :=
  sortStrings ((env.files.filter (fun f => pyEndsWith f ".pdf")).map (fun f => pyDropRight f 4))

/-- `CommandExecutor._get_all_downloaded_manga_ids`: the prefix before the
first `-` of every downloaded PDF's name; `FileNotFoundError` (missing
directory) is caught and yields `[]`. -/
def get_all_downloaded_manga_ids (env : Env) : List String :=
  if !env.dirExists then []
  else (list_downloaded_pdf_names env).map (fun name => (pySplitChar name '-').headD "")

/-! ## src/download/manager.py -/

/-- The mutable state of `DownloadManager`: the FIFO `download_queue` (tuples
`(user_id, manga_id, group_id, private)` in submission order), the
`queued_tasks` dict (`manga_id ↦ (user_id, group_id, private)`) and the
`downloading_mangas` dict (key set). -/
structure DMState where
  queue : List (String × String × Option String × Bool)
  queued_tasks : List (String × (String × Option String × Bool))
  downloading : List String
  deriving DecidableEq

/-- `DownloadManager.download_manga`: registers the id in `queued_tasks` and
appends the task to the FIFO queue — with no duplicate check of its own. -/
def download_manga (st : DMState) (user_id manga_id : String)
    (group_id : Option String) (pvt : Bool) : DMState :=
  { st with
    queued_tasks := assocSet st.queued_tasks manga_id (user_id, group_id, pvt)
    queue := st.queue ++ [(user_id, manga_id, group_id, pvt)] }

/-- Outcome of the fetch→convert pipeline of one download task, abstracting
`jmcomic.download_album` + per-chapter PDF conversion: an exception at any
stage (with its text), completion with no chapter folders found, or a list
of per-chapter conversion results (`some path` = converted PDF, `none` =
conversion failed). -/
inductive PipelineOutcome where
  | exn : String → PipelineOutcome
  | noChapters : PipelineOutcome
  | chapters : List (Option String) → PipelineOutcome
  deriving DecidableEq

/-- Effects the handlers perform, in order. -/
inductive BotAction where
  | sendText : String → BotAction
  | sendFile : String → BotAction
  | removeFile : String → BotAction
  deriving DecidableEq

/-- The messages the body of `_process_download_task` sends for a given
pipeline outcome (in the low-memory branch the completion message is sent
inside the branch and then again after the `if`, and every converted PDF is
sent in between). -/
def processTaskMsgs (lowMemory hasFileSender : Bool) (deleteDelay : Nat)
    (manga_id : String) (outcome : PipelineOutcome) : List BotAction :=
  match outcome with
  | .exn e => [.sendText ("❌ 下载失败：" ++ e ++ "\n\n快让主人帮我检查一下∑(O_O；)")]
  | .noChapters =>
    [.sendText ("✅（｀Δ´）！ 漫画ID " ++ manga_id ++ " 下载完成！\n未找到章节文件夹，无法转换为PDF\n\n⚠️ 注意：当前版本只支持发送PDF格式的漫画文件，请确保漫画成功转换为PDF后再尝试发送")]
  | .chapters results =>
    let pdf_files := results.filterMap (fun x => x)
    let success_count := pdf_files.length
    let failed_count := results.length - pdf_files.length
    if 0 < success_count then
      let chapter_info := if 1 < success_count then "（" ++ natToString success_count ++ " 个章节）" else ""
      if lowMemory && hasFileSender then
        let response := "✅ദ്ദി˶>ω<)✧ 漫画ID " ++ manga_id ++ chapter_info
          ++ " 下载完成！\n\n成功生成 " ++ natToString success_count
          ++ " 个PDF文件\n⚠️ 低占用模式：文件将在" ++ natToString deleteDelay
          ++ "分钟后自动删除"
        [BotAction.sendText response] ++ pdf_files.map BotAction.sendFile ++ [BotAction.sendText response]
      else
        [.sendText ("✅ദ്ദി˶>ω<)✧ 漫画ID " ++ manga_id ++ chapter_info
          ++ " 下载并转换为PDF完成！\n\n成功生成 " ++ natToString success_count
          ++ " 个PDF文件\n友情提示：输入'发送 " ++ manga_id ++ "'可以将PDF发送给您")]
    else
      [.sendText ("❌ 漫画ID " ++ manga_id ++ " 下载完成，但所有章节转换失败\n失败："
        ++ natToString failed_count ++ " 个章节\n请查看日志获取详细错误信息")]

/-- `DownloadManager._process_download_task`: removes the id from
`queued_tasks`, marks it in `downloading_mangas`, runs the pipeline (whose
outcome is the `outcome` parameter), and in the `finally` clause deletes the
id from `downloading_mangas` on every exit path (normal return, early
return on missing chapters, and the exception handler alike). -/
def process_download_task (lowMemory hasFileSender : Bool) (deleteDelay : Nat)
    (st : DMState) (user_id manga_id : String) (outcome : PipelineOutcome) :
    List BotAction × DMState :=
  let st1 : DMState :=
    { st with
      queued_tasks :=
        if assocHasKey st.queued_tasks manga_id then assocErase st.queued_tasks manga_id
        else st.queued_tasks
      downloading := dictInsertKey st.downloading manga_id }
  let msgs := processTaskMsgs lowMemory hasFileSender deleteDelay manga_id outcome
  let st2 : DMState :=
    { st1 with
      downloading :=
        if st1.downloading.contains manga_id then dictEraseKey st1.downloading manga_id
        else st1.downloading }
  (msgs, st2)

/-- `DownloadManager.delete_manga`: synchronous deletion of the PDF for an
id — missing directory and missing file are reported; `os.remove` failure
sends an error and re-raises. -/
def delete_manga (env : Env) (manga_id : String) : List BotAction :=
  if !env.dirExists then
    [.sendText "❌ 下载目录不存在！\n快让主人帮我检查一下ヽ(ﾟДﾟ)ﾉ"]
  else
    match env.files.find? (fun f => pyStartsWith f (manga_id ++ "-") && pyEndsWith f ".pdf") with
    | none => [.sendText ("❌（｀Δ´）！ 未找到漫画ID " ++ manga_id ++ " 的PDF文件")]
    | some pdf =>
      match env.removeErr pdf with
      | some e => [.sendText ("❌ 删除失败：" ++ e ++ "\n快让主人帮我检查一下ヽ(ﾟДﾟ)ﾉ")]
      | none => [.removeFile pdf,
          .sendText ("✅ദ്ദി˶>ω<)✧ 漫画ID " ++ manga_id ++ " 的PDF文件已成功删除！")]

/-! ## src/command/executor.py -/

/-- `CommandExecutor._download_single_manga`: if a PDF for the id already
exists the handler short-circuits with an "already downloaded" response and
submits nothing; otherwise it announces the download and calls
`DownloadManager.download_manga` — it consults neither `queued_tasks` nor
`downloading_mangas`. -/
def download_single_manga (env : Env) (st : DMState) (user_id manga_id : String)
    (group_id : Option String) (pvt : Bool) : List BotAction × DMState :=
  match find_manga_pdf env manga_id with
  | some pdf =>
    ([.sendText ("✅૮₍ ˶•‸•˶₎ა 漫画ID " ++ manga_id ++ " 已经下载过了！\n\n找到文件："
      ++ pdf ++ "\n\n你可以使用 '发送 " ++ manga_id ++ "' 命令获取该漫画哦~")], st)
  | none =>
    ([.sendText ("开始下载漫画ID：" ++ manga_id ++ "啦~，请稍候...")],
     download_manga st user_id manga_id group_id pvt)

/-- The first-ten enumeration used by the batch headers
(`enumerate(manga_ids[:10], 1)` plus the "... 还有 N 个" tail). -/
def batchIdLines (manga_ids : List String) : String :=
  String.join (((manga_ids.take 10).enum).map
    (fun p => "  " ++ natToString (p.1 + 1) ++ ". " ++ p.2 ++ "\n"))
  ++ (if 10 < manga_ids.length then
        "  ... 还有 " ++ natToString (manga_ids.length - 10) ++ " 个\n"
      else "")

/-- `CommandExecutor._download_batch_mangas`: sends the queue summary, then
submits every id that has no existing PDF (again with no busy check). -/
def download_batch_mangas (env : Env) (st : DMState) (user_id : String)
    (manga_ids : List String) (group_id : Option String) (pvt : Bool) :
    List BotAction × DMState :=
  let header := "开始批量下载 " ++ natToString manga_ids.length
    ++ " 个漫画，请稍候...\n\n已添加到下载队列：\n" ++ batchIdLines manga_ids
  ([.sendText header],
   manga_ids.foldl
     (fun acc manga_id =>
       if (find_manga_pdf env manga_id).isSome then acc
       else download_manga acc user_id manga_id group_id pvt)
     st)

/-- `CommandExecutor._handle_manga_download`: parse → (`--all` unsupported)
→ emptiness check → digit validation → single/batch dispatch, any
`ValueError` on the way being sent back as the reply. -/
def handle_manga_download (env : Env) (st : DMState) (user_id params : String)
    (group_id : Option String) (pvt : Bool) : List BotAction × DMState :=
  match parse_batch_params params with
  | .error e => ([.sendText e], st)
  | .ok (manga_ids, use_all) =>
    if use_all then
      ([.sendText "❌ 下载命令不支持 --all 参数\n请提供具体的漫画ID"], st)
    else if manga_ids.isEmpty then
      ([.sendText "❌ 参数错误！请提供有效的漫画ID"], st)
    else
      match validate_manga_ids manga_ids with
      | .error e => ([.sendText e], st)
      | .ok manga_ids =>
        if manga_ids.length == 1 then
          download_single_manga env st user_id (manga_ids.headD "") group_id pvt
        else download_batch_mangas env st user_id manga_ids group_id pvt

/-- `CommandExecutor._query_single_manga`: in-flight check, then PDF lookup;
a `FileNotFoundError` from the size stat is caught with a directory-error
reply. -/
def query_single_manga (env : Env) (downloading : List String)
    (manga_id : String) : List BotAction :=
  if downloading.contains manga_id then
    [.sendText ("⏳ 漫画ID " ++ manga_id ++ " 正在下载中！请耐心等待下载完成后再尝试发送。")]
  else
    match find_manga_pdf env manga_id with
    | some pdf =>
      if env.statErr pdf then
        [.sendText "❌ 下载目录不存在！快让主人帮我检查一下ヽ(ﾟДﾟ)ﾉ"]
      else
        [.sendText ("✅ദ്ദി˶>ω<)✧ 漫画ID " ++ manga_id ++ " 已经下载好啦！\n\n找到文件："
          ++ pdf ++ "\n文件大小：" ++ env.sizeOf pdf ++ " MB")]
    | none => [.sendText ("❌（｀Δ´）！ 漫画ID " ++ manga_id ++ " 还没有下载！")]

/-- The loop body of `_query_batch_mangas`: the `(manga_id, success,
detail)` triple for one id, individual failures (in-flight, missing PDF,
stat error) recorded rather than raised. -/
def query_batch_item (env : Env) (downloading : List String)
    (manga_id : String) : String × Bool × String :=
  if downloading.contains manga_id then (manga_id, false, "正在下载中")
  else
    match find_manga_pdf env manga_id with
    | some pdf =>
      if env.statErr pdf then (manga_id, false, "查询失败")
      else (manga_id, true, "已下载 (" ++ env.sizeOf pdf ++ " MB)")
    | none => (manga_id, false, "未下载")

/-- The triples `_query_batch_mangas` collects: one per requested id. -/
def query_batch_results (env : Env) (downloading : List String)
    (manga_ids : List String) : List (String × Bool × String) :=
  manga_ids.map (query_batch_item env downloading)

/-- `CommandExecutor._query_batch_mangas`: collect the triples, render one
aggregated response. -/
def query_batch_mangas (env : Env) (downloading : List String)
    (manga_ids : List String) : List BotAction :=
  [.sendText (format_batch_response "查询" (query_batch_results env downloading manga_ids))]

/-- `CommandExecutor._query_manga_existence`: parse → `--all` expansion
(with its dedicated "nothing downloaded" reply) → emptiness check → digit
validation → single/batch dispatch. -/
def query_manga_existence (env : Env) (downloading : List String)
    (params : String) : List BotAction :=
  match parse_batch_params params with
  | .error e => [.sendText e]
  | .ok (manga_ids0, use_all) =>
    let manga_ids := if use_all then get_all_downloaded_manga_ids env else manga_ids0
    if use_all && manga_ids.isEmpty then
      [.sendText "❌ 当前没有已下载的漫画"]
    else if manga_ids.isEmpty then
      [.sendText "❌ 参数错误！请提供有效的漫画ID"]
    else
      match validate_manga_ids manga_ids with
      | .error e => [.sendText e]
      | .ok manga_ids =>
        if manga_ids.length == 1 then
          query_single_manga env downloading (manga_ids.headD "")
        else query_batch_mangas env downloading manga_ids

/-- `CommandExecutor._delete_single_manga`: announce, then the synchronous
`DownloadManager.delete_manga`. -/
def delete_single_manga (env : Env) (manga_id : String) : List BotAction :=
  [.sendText ("ฅ( ̳• ·̫ • ̳ฅ)正在删除漫画ID：" ++ manga_id ++ "，请稍候...")]
    ++ delete_manga env manga_id

/-- The `(manga_id, success, detail)` triples `_delete_batch_mangas`
collects (its own re-implementation of the PDF lookup + `os.remove`). -/
def delete_batch_results (env : Env) (manga_ids : List String) :
    List (String × Bool × String) :=
  manga_ids.map (fun manga_id =>
    if !env.dirExists then (manga_id, false, "下载目录不存在")
    else
      match env.files.find? (fun f => pyStartsWith f (manga_id ++ "-") && pyEndsWith f ".pdf") with
      | none => (manga_id, false, "未找到PDF文件")
      | some pdf =>
        match env.removeErr pdf with
        | some e => (manga_id, false, e)
        | none => (manga_id, true, "删除成功"))

/-- The file removals `_delete_batch_mangas` actually performs. -/
def delete_batch_removals (env : Env) (manga_ids : List String) : List BotAction :=
  manga_ids.filterMap (fun manga_id =>
    if !env.dirExists then none
    else
      match env.files.find? (fun f => pyStartsWith f (manga_id ++ "-") && pyEndsWith f ".pdf") with
      | none => none
      | some pdf =>
        match env.removeErr pdf with
        | some _ => none
        | none => some (.removeFile pdf))

/-- `CommandExecutor._delete_batch_mangas`: summary header, per-id deletion
loop collecting triples without aborting, aggregated response. -/
def delete_batch_mangas (env : Env) (manga_ids : List String) : List BotAction :=
  [.sendText ("开始批量删除 " ++ natToString manga_ids.length
    ++ " 个漫画，请稍候...\n\n删除队列：\n" ++ batchIdLines manga_ids)]
  ++ delete_batch_removals env manga_ids
  ++ [.sendText (format_batch_response "删除" (delete_batch_results env manga_ids))]

/-- The misconfiguration reply for several configured delete users. -/
def deleteDisabledMulti : String :=
  "❌\x1b[31m删除功能不可用：删除权限用户名单必须且只能有一个用户\x1b[0m"

/-- The misconfiguration reply for zero configured delete users. -/
def deleteDisabledNone : String :=
  "❌\x1b[31m删除功能不可用：未配置删除权限用户\x1b[0m"

/-- The batch part of `_handle_manga_delete`, reached only after the
delete-permission gate passes. -/
def delete_after_permission (env : Env) (params : String) : List BotAction :=
  match parse_batch_params params with
  | .error e => [.sendText e]
  | .ok (manga_ids0, use_all) =>
    let manga_ids := if use_all then get_all_downloaded_manga_ids env else manga_ids0
    if use_all && manga_ids.isEmpty then
      [.sendText "❌ 当前没有已下载的漫画"]
    else if manga_ids.isEmpty then
      [.sendText "❌ 参数错误！请提供有效的漫画ID"]
    else
      match validate_manga_ids manga_ids with
      | .error e => [.sendText e]
      | .ok manga_ids =>
        if manga_ids.length == 1 then
          delete_single_manga env (manga_ids.headD "")
        else delete_batch_mangas env manga_ids

/-- `CommandExecutor._handle_manga_delete`: the delete-permission check runs
first; a `ValueError` whose text mentions the exactly-one rule or the
unconfigured rule yields the corresponding "feature disabled" reply, any
other `ValueError` a generic permission-failure reply — in all three cases
the handler returns before any batch logic. -/
def handle_manga_delete (env : Env) (delete_permission_user : List String)
    (user_id params : String) : List BotAction :=
  match check_delete_permission delete_permission_user user_id with
  | .error e =>
    if strContainsSub e "必须且只能有一个用户" then [.sendText deleteDisabledMulti]
    else if strContainsSub e "未配置删除权限用户" then [.sendText deleteDisabledNone]
    else [.sendText ("❌ 权限检查失败：" ++ e)]
  | .ok _ => delete_after_permission env params

/-! ## src/event/handler.py -/

/-- Remainder after `"CQ:reply,id=" ++ digits⁺ ++ "]"`, scanning the digits. -/
def scanDigitsRB : List Char → Option (List Char)
  | [] => none
  | c :: cs => if c = ']' then some cs else if c.isDigit then scanDigitsRB cs else none

/-- Match the tail of the `\[CQ:reply,id=\d+\]` pattern right after a `[`. -/
def matchReplyTail (l : List Char) : Option (List Char) :=
  if "CQ:reply,id=".data.isPrefixOf l then
    match l.drop "CQ:reply,id=".data.length with
    | [] => none
    | c :: cs => if c.isDigit then scanDigitsRB cs else none
  else none

/-- Fuel-driven worker for `removeCQReply` (fuel = input length suffices:
every step consumes at least one character). -/
def removeCQReplyAux : Nat → List Char → List Char
  | 0, l => l
  | _ + 1, [] => []
  | fuel + 1, c :: cs =>
    if c = '[' then
      match matchReplyTail cs with
      | some rest => removeCQReplyAux fuel rest
      | none => c :: removeCQReplyAux fuel cs
    else c :: removeCQReplyAux fuel cs

/-- `re.sub(r"\[CQ:reply,id=\d+\]", "", message)` from
`EventHandler._handle_group_message`. -/
def removeCQReply (s : String) : String := ⟨removeCQReplyAux s.data.length s.data⟩

/-- `EventHandler._is_at_self`: with the cached self id unset (Python-falsy:
`None` or empty) it logs a warning and reports "not mentioned" regardless of
the message; otherwise it looks for `@<id>` or `[CQ:at,qq=<id>]`. -/
def is_at_self (self_id : Option String) (message : String) : Bool :=
  match self_id with
  | none => false
  | some sid =>
    if !pyNonEmpty sid then false
    else strContainsSub message ("@" ++ sid)
      || strContainsSub message ("[CQ:at,qq=" ++ sid ++ "]")

/-- `EventHandler._remove_at_mention`: strip the CQ-at markup and the plain
`@<id>` occurrences, then trim. -/
def remove_at_mention (self_id : String) (message : String) : String :=
  pyTrim (replaceSub (replaceSub message ("[CQ:at,qq=" ++ self_id ++ "]") "")
    ("@" ++ self_id) "")

/-- `EventHandler._handle_group_message`: returns the
`(user_id, stripped message, group_id)` forwarded to the command handler, or
`none` when the message is dropped (missing fields, permission deny, or no
self-mention). -/
def handle_group_message (pm : PermissionManager) (self_id : Option String)
    (group_id user_id message : String) : Option (String × String × String) :=
  if !pyNonEmpty group_id || !pyNonEmpty user_id || !pyNonEmpty message then none
  else
    match check_user_permission pm user_id (some group_id) false with
    | .error _ => none
    | .ok _ =>
      let message := removeCQReply message
      if !is_at_self self_id message then none
      else some (user_id, remove_at_mention (self_id.getD "") message, group_id)

/-! ## Helper lemmas -/

/-- Concatenation of a list of strings (used to characterize the
failure-details loop). -/
def strConcat : List String → String
  | [] => ""
  | s :: ss => s ++ strConcat ss

theorem str_append_empty (s : String) : s ++ "" = s := by
  rcases s with ⟨l⟩
  show String.mk (l ++ []) = String.mk l
  rw [List.append_nil]

theorem str_append_assoc (a b c : String) : (a ++ b) ++ c = a ++ (b ++ c) := by
  rcases a with ⟨la⟩; rcases b with ⟨lb⟩; rcases c with ⟨lc⟩
  show String.mk ((la ++ lb) ++ lc) = String.mk (la ++ (lb ++ lc))
  rw [List.append_assoc]

theorem str_empty_append (s : String) : "" ++ s = s := by
  rcases s with ⟨l⟩
  show String.mk ([] ++ l) = String.mk l
  rw [List.nil_append]

theorem pyNonEmpty_of_trim (s : String) (h : pyNonEmpty (pyTrim s) = true) :
    pyNonEmpty s = true := by
  rcases s with ⟨l⟩
  cases l with
  | nil => simp [pyTrim, pyNonEmpty] at h
  | cons c cs => simp [pyNonEmpty]

theorem pyNonEmpty_of_contains (t : String) (c : Char)
    (h : pyContainsChar t c = true) : pyNonEmpty t = true := by
  rcases t with ⟨l⟩
  cases l with
  | nil => simp [pyContainsChar] at h
  | cons a as => simp [pyNonEmpty]

theorem dictInsertKey_contains (l : List String) (k : String) :
    (dictInsertKey l k).contains k = true := by
  unfold dictInsertKey
  split
  · assumption
  · simp

theorem dictEraseKey_contains (l : List String) (k : String) :
    (dictEraseKey l k).contains k = false := by
  unfold dictEraseKey
  simp [List.elem_iff]

/-! ## Claim theorems -/

/-- C4: for every job the worker dequeues, on every exit path of
`_process_download_task` — normal completion, failure at any stage
(no chapters, all conversions failed), or an exception — the job's
identifier has been removed from `downloading_mangas` in the final state,
whatever the prior state was. -/
theorem C4_in_flight_always_cleared (lowMemory hasFileSender : Bool)
    (deleteDelay : Nat) (st : DMState) (user_id manga_id : String)
    (outcome : PipelineOutcome) :
    ((process_download_task lowMemory hasFileSender deleteDelay st user_id
        manga_id outcome).2).downloading.contains manga_id = false := by
  unfold process_download_task
  simp only
  rw [if_pos (dictInsertKey_contains st.downloading manga_id)]
  exact dictEraseKey_contains _ _

/-- C10: parameter-shape validation is not a sound precondition for batch
parsing: the argument `"350234。350235"` (two digit tokens joined by a
full-width period) passes `validate_params` for the batch-capable
`download` command, yet `parse_batch_params` raises a `ValueError` on it. -/
theorem C10_validate_params_not_sound_for_parse :
    validate_params "download" "350234。350235" = true ∧
    parse_batch_params "350234。350235" =
      Except.error "❌ 参数错误！请提供有效的漫画ID（纯数字）或使用逗号分隔多个ID" :=
  ⟨rfl, rfl⟩

/-- A download directory with no files at all (so no Output Artifact). -/
def envNoFiles : Env := ⟨true, [], fun _ => "", fun _ => false, fun _ => none⟩

/-- A manager state whose worker is currently processing manga id `123`
(`downloading_mangas = {"123"}`), with nothing queued. -/
def stBusy123 : DMState := ⟨[], [], ["123"]⟩

/-- C1 counterexample: with identifier `123` in the in-flight map and no
artifact on disk, issuing `download 123` again does *not* reject the
duplicate — the handler answers with the "开始下载" start message (there is
no "already processing" response) and calls `download_manga`, appending a
second Job for `123` to the queue while `123` is still in-flight. -/
theorem C1_counterexample :
    stBusy123.downloading.contains "123" = true ∧
    download_single_manga envNoFiles stBusy123 "u" "123" none true =
      ([BotAction.sendText "开始下载漫画ID：123啦~，请稍候..."],
       ⟨[("u", "123", none, true)], [("123", ("u", none, true))], ["123"]⟩) :=
  ⟨rfl, rfl⟩

/-- C1 (amended): the download handler deduplicates only against the Output
Artifact: when a PDF for the identifier exists it replies "already
downloaded" and leaves the manager state untouched (no Job); when no PDF
exists it always replies with the start message and submits — appending a
new Job to the FIFO queue and writing the queued-map entry — for every
prior state, in particular also when the identifier is already in
`queued_tasks` or `downloading_mangas`, so a duplicate request for a busy
identifier is re-enqueued rather than rejected. -/
theorem C1_amended_artifact_only_dedup (env : Env) (st : DMState)
    (user_id manga_id : String) (group_id : Option String) (pvt : Bool) :
    (∀ pdf, find_manga_pdf env manga_id = some pdf →
      download_single_manga env st user_id manga_id group_id pvt =
        ([BotAction.sendText ("✅૮₍ ˶•‸•˶₎ა 漫画ID " ++ manga_id
          ++ " 已经下载过了！\n\n找到文件：" ++ pdf ++ "\n\n你可以使用 '发送 "
          ++ manga_id ++ "' 命令获取该漫画哦~")], st)) ∧
    (find_manga_pdf env manga_id = none →
      download_single_manga env st user_id manga_id group_id pvt =
        ([BotAction.sendText ("开始下载漫画ID：" ++ manga_id ++ "啦~，请稍候...")],
         { st with
            queued_tasks := assocSet st.queued_tasks manga_id (user_id, group_id, pvt)
            queue := st.queue ++ [(user_id, manga_id, group_id, pvt)] })) := by
  constructor
  · intro pdf hpdf
    unfold download_single_manga
    rw [hpdf]
  · intro hnone
    unfold download_single_manga
    rw [hnone]
    rfl

/-- Witness for `C1_amended_artifact_only_dedup` at a concrete input: a
state already downloading `123`, no artifact, so the no-artifact branch
fires and appends the duplicate Job. -/
theorem C1_amended_witness :
    download_single_manga envNoFiles ⟨[], [], ["123"]⟩ "u" "123" none true =
      ([BotAction.sendText ("开始下载漫画ID：" ++ "123" ++ "啦~，请稍候...")],
       { queue := [("u", "123", none, true)],
         queued_tasks := assocSet [] "123" ("u", none, true),
         downloading := ["123"] }) :=
  (C1_amended_artifact_only_dedup envNoFiles ⟨[], [], ["123"]⟩ "u" "123" none true).2 rfl

theorem validate_manga_ids_error_of_find (ids : List String) (bad : String)
    (h : ids.find? (fun i => !pyIsDigit i) = some bad) :
    validate_manga_ids ids =
      .error ("❌ 参数错误！漫画ID '" ++ bad ++ "' 不是有效的数字") := by
  induction ids with
  | nil => simp [List.find?] at h
  | cons a as ih =>
    rw [List.find?_cons] at h
    unfold validate_manga_ids
    cases hd : (!pyIsDigit a) with
    | true =>
      rw [hd] at h
      simp only [Option.some.injEq] at h
      subst h
      rw [if_pos rfl]
    | false =>
      rw [hd] at h
      simp only [Bool.false_eq_true, if_false]
      rw [ih h]

theorem find?_some_ne_nil {p : String → Bool} {ids : List String} {bad : String}
    (h : ids.find? p = some bad) : ids.isEmpty = false := by
  cases ids with
  | nil => simp [List.find?] at h
  | cons a as => rfl

/-- C5: when the parsed identifier list contains a non-digit entry,
validation aborts at the first such token, `_handle_manga_download` replies
with the error naming exactly that token, and the manager state is
unchanged — no Job is submitted for any identifier of the batch, the
well-formed ones included. -/
theorem C5_batch_all_or_nothing (env : Env) (st : DMState)
    (user_id params : String) (group_id : Option String) (pvt : Bool)
    (ids : List String) (bad : String)
    (h1 : parse_batch_params params = .ok (ids, false))
    (h2 : ids.find? (fun i => !pyIsDigit i) = some bad) :
    handle_manga_download env st user_id params group_id pvt =
      ([BotAction.sendText ("❌ 参数错误！漫画ID '" ++ bad ++ "' 不是有效的数字")], st) := by
  unfold handle_manga_download
  rw [h1]
  simp only [Bool.false_eq_true, if_false]
  rw [find?_some_ne_nil h2]
  simp only [Bool.false_eq_true, if_false]
  rw [validate_manga_ids_error_of_find ids bad h2]

/-- Witness for `C5_batch_all_or_nothing`: `download 123,abc,456` rejects
the whole batch with the error naming `abc` and submits nothing. -/
theorem C5_batch_all_or_nothing_witness :
    handle_manga_download envNoFiles ⟨[], [], []⟩ "u" "123,abc,456" none true =
      ([BotAction.sendText ("❌ 参数错误！漫画ID '" ++ "abc" ++ "' 不是有效的数字")],
       ⟨[], [], []⟩) :=
  C5_batch_all_or_nothing envNoFiles ⟨[], [], []⟩ "u" "123,abc,456" none true
    ["123", "abc", "456"] "abc" rfl rfl

/-- C9: when the query command is invoked with the `--all` directive and
there are zero downloaded artifacts, the handler replies with exactly the
single "nothing downloaded" message — no per-identifier query runs and no
batch result list is rendered. -/
theorem C9_query_all_empty (env : Env) (downloading : List String)
    (params : String) (ids0 : List String)
    (h1 : parse_batch_params params = .ok (ids0, true))
    (h2 : get_all_downloaded_manga_ids env = []) :
    query_manga_existence env downloading params =
      [BotAction.sendText "❌ 当前没有已下载的漫画"] := by
  unfold query_manga_existence
  rw [h1]
  simp only [if_true, h2, List.isEmpty_nil, Bool.and_true, ite_true]

/-- Witness for `C9_query_all_empty`: `query --all` over an empty download
directory. -/
theorem C9_query_all_empty_witness :
    query_manga_existence envNoFiles ["42"] "--all" =
      [BotAction.sendText "❌ 当前没有已下载的漫画"] :=
  C9_query_all_empty envNoFiles ["42"] "--all" [] rfl rfl

/-- C6: the permission check evaluates the global blacklist first and
short-circuits — a blacklisted user is denied whatever the whitelists hold
(the statement quantifies over every `PermissionManager`, so in particular
over those whose private whitelist contains the user and whose group
whitelist contains the group) — and for a non-blacklisted user an empty
relevant whitelist (private whitelist in private chat, group whitelist in
group chat) imposes no restriction: the request is allowed. -/
theorem C6_blacklist_first_empty_whitelist_open (pm : PermissionManager)
    (user_id : String) (group_id : Option String) (pvt : Bool) :
    (pm.global_blacklist.contains user_id = true →
      check_user_permission pm user_id group_id pvt =
        .error ("用户 " ++ user_id ++ " 在全局黑名单中，拒绝访问")) ∧
    (pm.global_blacklist.contains user_id = false → pvt = true →
      pm.private_whitelist = [] →
      check_user_permission pm user_id group_id pvt = .ok true) ∧
    (pm.global_blacklist.contains user_id = false → pvt = false →
      pm.group_whitelist = [] →
      check_user_permission pm user_id group_id pvt = .ok true) := by
  refine ⟨fun hb => ?_, fun hb hp hw => ?_, fun hb hp hw => ?_⟩
  · unfold check_user_permission
    rw [hb]
    simp only [if_true]
  · unfold check_user_permission
    rw [hb, hp, hw]
    simp
  · unfold check_user_permission
    rw [hb, hp, hw]
    cases group_id with
    | none => simp
    | some g => simp

/-- Witness for `C6_blacklist_first_empty_whitelist_open`: user `u1` sits in
the blacklist *and* in the private whitelist, group `g1` in the group
whitelist — the request is still denied; and with empty whitelists a
non-blacklisted user is allowed in both channel kinds. -/
theorem C6_blacklist_first_empty_whitelist_open_witness :
    check_user_permission ⟨["g1"], ["u1"], ["u1"]⟩ "u1" (some "g1") true =
      .error ("用户 " ++ "u1" ++ " 在全局黑名单中，拒绝访问") ∧
    check_user_permission ⟨["g1"], [], []⟩ "u2" none true = .ok true ∧
    check_user_permission ⟨[], ["u1"], []⟩ "u2" (some "g2") false = .ok true :=
  ⟨(C6_blacklist_first_empty_whitelist_open ⟨["g1"], ["u1"], ["u1"]⟩ "u1" (some "g1") true).1 rfl,
   (C6_blacklist_first_empty_whitelist_open ⟨["g1"], [], []⟩ "u2" none true).2.1 rfl rfl rfl,
   (C6_blacklist_first_empty_whitelist_open ⟨[], ["u1"], []⟩ "u2" (some "g2") false).2.2 rfl rfl rfl⟩

/-- C7: whenever the cached self identifier is unset (Python-falsy: never
seen, or empty), `_is_at_self` reports "not mentioned" regardless of the
message content, and consequently `_handle_group_message` never forwards
the group message to the command executor — for every permission
configuration, group, user and message. -/
theorem C7_unknown_self_id_drops_group_message (pm : PermissionManager)
    (self_id : Option String) (h : self_id = none ∨ self_id = some "")
    (group_id user_id message : String) :
    is_at_self self_id message = false ∧
    handle_group_message pm self_id group_id user_id message = none := by
  have hat : ∀ m : String, is_at_self self_id m = false := by
    intro m
    rcases h with h | h <;> subst h
    · rfl
    · rfl
  refine ⟨hat message, ?_⟩
  unfold handle_group_message
  split
  · rfl
  · cases hperm : check_user_permission pm user_id (some group_id) false with
    | error e => simp
    | ok b =>
      simp only
      rw [hat (removeCQReply message)]
      simp

/-- Witness for `C7_unknown_self_id_drops_group_message`: a self-mention-
looking message is still dropped while the self id is unknown. -/
theorem C7_unknown_self_id_drops_group_message_witness :
    is_at_self none "[CQ:at,qq=777] 下载 350234" = false ∧
    handle_group_message ⟨[], [], []⟩ none "g7" "u7" "[CQ:at,qq=777] 下载 350234" = none :=
  C7_unknown_self_id_drops_group_message ⟨[], [], []⟩ none (Or.inl rfl) "g7" "u7"
    "[CQ:at,qq=777] 下载 350234"

/-- C2: `_handle_manga_delete` runs the delete-permission check before any
batch logic.  With exactly one configured entry the check decides by
membership: the member reaches the batch logic, a non-member gets a single
(permission-failure) reply and nothing is deleted.  With zero or several
entries the handler replies with the corresponding "delete feature
disabled" message — the same trace for every user, so nobody is granted or
denied specifically — and performs no parsing, no deletion and no batch
logic.  (`check_delete_permission` itself is modelled from the spec, see
its doc comment.) -/
theorem C2_delete_permission_gate (env : Env) (dp : List String)
    (u u2 params : String) :
    (dp.length = 1 → (check_delete_permission dp u).isOk = dp.contains u) ∧
    (dp.length = 1 → dp.contains u = true →
      handle_manga_delete env dp u params = delete_after_permission env params) ∧
    (dp.length = 1 → dp.contains u = false →
      ∃ reply, handle_manga_delete env dp u params = [BotAction.sendText reply]) ∧
    (dp.length ≠ 1 →
      handle_manga_delete env dp u params =
        [BotAction.sendText (if dp.isEmpty then deleteDisabledNone else deleteDisabledMulti)] ∧
      handle_manga_delete env dp u params = handle_manga_delete env dp u2 params) := by
  match dp with
  | [] =>
    refine ⟨fun h => by simp at h, fun h => by simp at h, fun h => by simp at h,
      fun _ => ⟨rfl, rfl⟩⟩
  | [a] =>
    refine ⟨fun _ => ?_, fun _ hc => ?_, fun _ hc => ?_, fun h => absurd rfl h⟩
    · unfold check_delete_permission
      cases hc : ([a] : List String).contains u with
      | true => simp [hc, Except.isOk, Except.toBool]
      | false => simp [hc, Except.isOk, Except.toBool]
    · have hua : u = a := by simpa using hc
      have hok : check_delete_permission [a] u = .ok true := by
        unfold check_delete_permission
        simp [hua]
      unfold handle_manga_delete
      rw [hok]
    · have hua : ¬ u = a := by simpa using hc
      have herr : check_delete_permission [a] u =
          .error ("用户 " ++ u ++ " 没有删除权限") := by
        unfold check_delete_permission
        simp [hua]
      unfold handle_manga_delete
      rw [herr]
      dsimp only
      split
      · exact ⟨_, rfl⟩
      · split
        · exact ⟨_, rfl⟩
        · exact ⟨_, rfl⟩
  | a :: b :: rest =>
    have hne : (a :: b :: rest).length ≠ 1 := by
      simp [List.length_cons]
    refine ⟨fun h => absurd h hne, fun h => absurd h hne, fun h => absurd h hne,
      fun _ => ?_⟩
    have hchk : ∀ w : String, check_delete_permission (a :: b :: rest) w =
        .error "删除权限用户名单必须且只能有一个用户" := by
      intro w
      unfold check_delete_permission
      rw [if_neg (by simp), if_pos (by simp [List.length_cons])]
    have he : ∀ w, handle_manga_delete env (a :: b :: rest) w params =
        [BotAction.sendText deleteDisabledMulti] := by
      intro w
      unfold handle_manga_delete
      rw [hchk w]
      rfl
    refine ⟨?_, (he u).trans (he u2).symm⟩
    rw [he u]
    rfl

/-- Witness for `C2_delete_permission_gate`: two configured delete users
disable the feature with the "exactly one user" reply, and with the single
configured user `a` the check grants exactly `a`. -/
theorem C2_delete_permission_gate_witness :
    handle_manga_delete envNoFiles ["a", "b"] "usr" "5" =
      [BotAction.sendText
        (if (["a", "b"] : List String).isEmpty then deleteDisabledNone
         else deleteDisabledMulti)] ∧
    (check_delete_permission ["a"] "a").isOk = (["a"] : List String).contains "a" :=
  ⟨((C2_delete_permission_gate envNoFiles ["a", "b"] "usr" "x" "5").2.2.2
      (by decide)).1,
   (C2_delete_permission_gate envNoFiles ["a"] "a" "x" "5").1 rfl⟩

/-- C3 counterexample: `"350234。350235"` contains the full-width period
separator, yet `parse_batch_params` does not split it into
`["350234", "350235"]` — it raises the `ValueError` for a non-numeric
single token, because the function only ever splits on the ASCII comma. -/
theorem C3_counterexample :
    parse_batch_params "350234。350235" =
      Except.error "❌ 参数错误！请提供有效的漫画ID（纯数字）或使用逗号分隔多个ID" := rfl

/-- C3 (amended): `parse_batch_params` treats only the ASCII comma as a
separator.  An input whose trimmed form contains a comma (and does not
start with the `--all` directive) is split on commas with pieces trimmed
and empties dropped, erroring only when the resulting list is empty; an
input containing no comma — in particular one whose tokens are joined by a
period or a full-width separator — is never split: unless it is empty,
`--all`, or a single all-digits token, it is rejected with a
`ValueError`. -/
theorem C3_amended_comma_only_separator (s : String) :
    (pyContainsChar (pyTrim s) ',' = true →
     pyStartsWith (pyTrim s) "--all" = false →
      parse_batch_params s =
        (if (((pySplitChar (pyTrim s) ',').map pyTrim).filter pyNonEmpty).isEmpty then
          Except.error "❌ 参数错误！未提供有效的漫画ID"
         else Except.ok (((pySplitChar (pyTrim s) ',').map pyTrim).filter pyNonEmpty, false))) ∧
    (pyContainsChar (pyTrim s) ',' = false →
     pyNonEmpty (pyTrim s) = true →
     (pyTrim s == "--all") = false →
     pyStartsWith (pyTrim s) "--all" = false →
     pyIsDigit (pyTrim s) = false →
      parse_batch_params s =
        Except.error "❌ 参数错误！请提供有效的漫画ID（纯数字）或使用逗号分隔多个ID") := by
  constructor
  · intro hc hsw
    have h1 : pyNonEmpty (pyTrim s) = true := pyNonEmpty_of_contains _ _ hc
    have h0 : pyNonEmpty s = true := pyNonEmpty_of_trim s h1
    have h2 : (pyTrim s == "--all") = false := by
      cases hb : pyTrim s == "--all" with
      | false => rfl
      | true =>
        have heq : pyTrim s = "--all" := eq_of_beq hb
        rw [heq] at hc
        exact absurd hc (by decide)
    unfold parse_batch_params
    simp only [h0, h1, h2, hsw, hc, Bool.not_true, Bool.or_self, Bool.false_eq_true,
      if_false, if_true, ite_false, ite_true]
  · intro hc h1 h2 hsw hdig
    have h0 : pyNonEmpty s = true := pyNonEmpty_of_trim s h1
    unfold parse_batch_params
    simp only [h0, h1, h2, hsw, hc, hdig, Bool.not_true, Bool.or_self, Bool.false_eq_true,
      if_false, if_true, ite_false, ite_true]

/-- Witness for `C3_amended_comma_only_separator`: a comma-separated input
is split; the full-width-period input of the counterexample is rejected. -/
theorem C3_amended_witness :
    parse_batch_params "1, 2" = Except.ok (["1", "2"], false) ∧
    parse_batch_params "350234。350235" =
      Except.error "❌ 参数错误！请提供有效的漫画ID（纯数字）或使用逗号分隔多个ID" := by
  constructor
  · have h := (C3_amended_comma_only_separator "1, 2").1 rfl rfl
    rw [h]
    rfl
  · exact (C3_amended_comma_only_separator "350234。350235").2 rfl rfl rfl rfl rfl

theorem countP_lt_iff_any (l : List (String × Bool × String)) :
    (l.countP (fun r => r.2.1) < l.length) ↔ l.any (fun r => !r.2.1) = true := by
  rw [List.any_eq_true]
  constructor
  · intro h
    by_contra hc
    push_neg at hc
    have hall : ∀ a ∈ l, (fun r : String × Bool × String => r.2.1) a = true := by
      intro a ha
      cases hb : a.2.1 with
      | true => exact hb
      | false => exact absurd (by simp [hb]) (hc a ha)
    rw [← List.countP_eq_length] at hall
    omega
  · rintro ⟨x, hx, hpx⟩
    have hne : l.countP (fun r => r.2.1) ≠ l.length := by
      intro he
      have hxt := (List.countP_eq_length).mp he x hx
      simp only [hxt, Bool.not_true] at hpx
      exact absurd hpx (by simp)
    exact lt_of_le_of_ne (List.countP_le_length _) hne

theorem foldl_failLines (results : List (String × Bool × String)) (acc : String) :
    results.foldl (fun acc r => if !r.2.1 then acc ++ mkFailLine r else acc) acc =
      acc ++ strConcat ((results.filter (fun r => !r.2.1)).map mkFailLine) := by
  induction results generalizing acc with
  | nil => simp [strConcat, str_append_empty]
  | cons r rs ih =>
    rw [List.foldl_cons, List.filter_cons]
    cases hr : (!r.2.1) with
    | true =>
      simp only [hr, ite_true, List.map_cons]
      rw [ih]
      show (acc ++ mkFailLine r) ++ _ = acc ++ (mkFailLine r ++ _)
      rw [str_append_assoc]
    | false =>
      simp only [hr, Bool.false_eq_true, ite_false]
      exact ih acc

theorem query_batch_item_fst (env : Env) (downloading : List String)
    (manga_id : String) : (query_batch_item env downloading manga_id).1 = manga_id := by
  unfold query_batch_item
  split
  · rfl
  · split
    · split
      · rfl
      · rfl
    · rfl

theorem query_batch_results_fst (env : Env) (downloading manga_ids : List String) :
    (query_batch_results env downloading manga_ids).map (fun r => r.1) = manga_ids := by
  unfold query_batch_results
  rw [List.map_map]
  have hfun : ((fun r : String × Bool × String => r.1) ∘ query_batch_item env downloading)
      = fun manga_id => manga_id := by
    funext manga_id
    exact query_batch_item_fst env downloading manga_id
  rw [hfun]
  exact List.map_id' manga_ids

/-- C8: for every non-empty result list of `(identifier, success, detail)`
triples, the aggregated response is the count header (total, success,
failure counts) followed by an itemized section that exists exactly when
some triple failed and lists exactly the failed triples (so no successful
identifier is itemized); and the batch-query collection produces one triple
per requested identifier, in order — individual failures never abort the
collection. -/
theorem C8_batch_aggregation (c : String) (results : List (String × Bool × String))
    (h : results ≠ []) (env : Env) (downloading manga_ids : List String) :
    format_batch_response c results =
      batchHeader c results ++
        (if results.any (fun r => !r.2.1) then
          "❌ 失败详情：\n" ++ strConcat ((results.filter (fun r => !r.2.1)).map mkFailLine)
         else "") ∧
    (query_batch_results env downloading manga_ids).map (fun r => r.1) = manga_ids := by
  refine ⟨?_, query_batch_results_fst env downloading manga_ids⟩
  unfold format_batch_response
  rw [if_neg (by simp [h])]
  dsimp only
  by_cases hf : results.any (fun r => !r.2.1) = true
  · rw [if_pos ((countP_lt_iff_any results).mpr hf), if_pos hf, foldl_failLines,
      str_empty_append]
    exact str_append_assoc _ _ _
  · rw [if_neg (fun hlt => hf ((countP_lt_iff_any results).mp hlt)), if_neg hf,
      str_append_empty]

/-- Witness for `C8_batch_aggregation` at a two-element result list with one
failure and a concrete two-id query. -/
theorem C8_batch_aggregation_witness :
    format_batch_response "查询" [("1", true, "ok"), ("2", false, "bad")] =
      batchHeader "查询" [("1", true, "ok"), ("2", false, "bad")] ++
        (if ([("1", true, "ok"), ("2", false, "bad")] :
            List (String × Bool × String)).any (fun r => !r.2.1) then
          "❌ 失败详情：\n" ++ strConcat
            (([("1", true, "ok"), ("2", false, "bad")] :
              List (String × Bool × String)).filter (fun r => !r.2.1) |>.map mkFailLine)
         else "") ∧
    (query_batch_results envNoFiles [] ["7", "8"]).map (fun r => r.1) = ["7", "8"] :=
  C8_batch_aggregation "查询" [("1", true, "ok"), ("2", false, "bad")]
    (List.cons_ne_nil _ _) envNoFiles [] ["7", "8"]
